import Mathlib

/-!
# Verification of the stack deployment orchestrator (deploy-stack)

Shallow embedding of `deployStack` / `destroyStack` and their helper
`makeBodyParameter` from the deployment-orchestration module.  External
collaborators (the CloudFormation client, the stack pollers
`stackExists` / `stackFailedCreating` / `waitForStack` / `waitForChangeSet`,
the object-storage uploader and the YAML serializer) are not part of the
source under verification; each remote response is supplied by an
environment record (`CfnEnv` / `DestroyEnv`), and each remote request is
recorded as an `Event` in an execution trace, in the order the source
issues the calls.  The orchestrator itself is translated line by line.
-/

namespace DeployStackModel

instance {ε α : Type} [DecidableEq ε] [DecidableEq α] : DecidableEq (Except ε α) := fun x y =>
  match x, y with
  | Except.ok a, Except.ok b => decidable_of_iff (a = b) (by simp)
  | Except.error a, Except.error b => decidable_of_iff (a = b) (by simp)
  | Except.ok _, Except.error _ => isFalse (by simp)
  | Except.error _, Except.ok _ => isFalse (by simp)

/-- A stack description as returned by `describeStack` / `waitForStack`:
the status string and the optional list of stack outputs. -/
structure StackDescription where
  StackStatus : String
  Outputs : Option (List (String × String)) := none
deriving Repr, DecidableEq

/-- One proposed resource change inside a change set description. -/
structure ResourceChange where
  action : String
deriving Repr, DecidableEq

/-- The change set description returned by `waitForChangeSet`
(`describeChangeSet` polled to readiness); `Changes` may be absent. -/
structure ChangeSetDescription where
  Changes : Option (List ResourceChange) := none
deriving Repr, DecidableEq

/-- The `ChangeSetType` field of a `createChangeSet` request. -/
inductive ChangeSetType
  | CREATE
  | UPDATE
deriving Repr, DecidableEq

/-- `TemplateBodyParameter`: either an inline template body or a URL to an
uploaded template, as produced by `makeBodyParameter`. -/
structure TemplateBodyParameter where
  TemplateBody : Option String := none
  TemplateURL : Option String := none
deriving Repr, DecidableEq

/-- The full `createChangeSet` request assembled by `deployStack`. -/
structure ChangeSetRequest where
  StackName : String
  ChangeSetName : String
  ChangeSetType : ChangeSetType
  Description : String
  TemplateBody : Option String
  TemplateURL : Option String
  Parameters : List (String × String)
  RoleARN : Option String
  Capabilities : List String
deriving Repr, DecidableEq

/-- One remote interaction issued by the orchestrator, recorded in program
order.  `monitorStart` / `monitorStop` record the activity monitor
lifecycle; the remaining constructors record control-plane (or S3) calls. -/
inductive Event
  | stackFailedCreatingCheck (stackName : String)
  | deleteStack (stackName : String)
  | waitForStack (stackName : String) (failOnDeletedStack : Bool)
  | stackExistsCheck (stackName : String)
  | upload (content : String)
  | createChangeSet (req : ChangeSetRequest)
  | waitForChangeSet (stackName changeSetName : String)
  | deleteChangeSet (stackName changeSetName : String)
  | executeChangeSet (stackName changeSetName : String)
  | monitorStart (stackName : String)
  | monitorStop (stackName : String)
  | describeStack (stackName : String)
deriving Repr, DecidableEq

/-- Modelled from the spec: the object-storage uploader (`ToolkitInfo`,
whose implementation is not under src/).  `uploadIfChanged` is, per the
spec, idempotent — re-uploading unchanged content yields the same key —
so it is modelled as a function `uploadKey` from the uploaded content to
the resulting S3 key (the call-site-fixed key prefix, suffix and content
type are absorbed into the function). -/
structure ToolkitInfo where
  bucketUrl : String
  uploadKey : String → String

/-- The synthesized stack input.  The template document is represented by
its serialized (YAML) text: `YAML.safeDump` is an external serializer, so
the model works directly with the serialized string it would produce. -/
structure SynthesizedStack where
  name : String
  environment : Option String
  template : String

/-- `DeployStackOptions` (the `sdk` client factory is external and carries
no data the model needs). -/
structure DeployStackOptions where
  stack : SynthesizedStack
  toolkitInfo : Option ToolkitInfo := none
  roleArn : Option String := none
  deployName : Option String := none
  quiet : Bool := false

/-- `DestroyStackOptions`. -/
structure DestroyStackOptions where
  stack : SynthesizedStack
  roleArn : Option String := none
  deployName : Option String := none
  quiet : Bool := false

/-- `DeployStackResult`. -/
structure DeployStackResult where
  noOp : Bool
  outputs : List (String × String)
  stackArn : String
deriving Repr, DecidableEq

/-- Responses of the external collaborators consumed by one `deployStack`
run: the fresh execution id (`uuid.v4()`), the parameters produced by
`prepareAssets`, and the response of each remote call in program order.
`afterDeleteStack` / `afterExecute` are the results of the two
`waitForStack` awaits; a `waitForStack` that terminates with an error is
an `Except.error`. -/
structure CfnEnv where
  executionId : String
  params : List (String × String) := []
  stackFailedCreating : Bool
  afterDeleteStack : Except String (Option StackDescription) := Except.ok none
  stackExists : Bool
  createChangeSetStackId : String
  changeSetDescription : Option ChangeSetDescription
  describeStackResult : Option StackDescription := none
  afterExecute : Except String (Option StackDescription) := Except.ok none
deriving Repr, DecidableEq

/-- Responses of the external collaborators consumed by one `destroyStack`
run. -/
structure DestroyEnv where
  stackExists : Bool
  afterDelete : Except String (Option StackDescription) := Except.ok none
deriving Repr, DecidableEq

/-- Outcome of a `deployStack` run: the returned value or thrown error,
plus the trace of remote interactions (also on error paths). -/
structure DeployOutcome where
  result : Except String DeployStackResult
  trace : List Event
deriving Repr, DecidableEq

/-- Outcome of a `destroyStack` run. -/
structure DestroyOutcome where
  result : Except String Unit
  trace : List Event
deriving Repr, DecidableEq

/-- `options.deployName || options.stack.name`: JavaScript `||` takes the
stack name when `deployName` is `undefined` or falsy (the empty string). -/
def resolveDeployName (deployName : Option String) (stackName : String) : String :=
  match deployName with
  | none => stackName
  | some s => if s = "" then stackName else s

/-- `LARGE_TEMPLATE_SIZE_KB = 50`. -/
def LARGE_TEMPLATE_SIZE_KB : Nat := 50

/-- JavaScript object update `result[k] = v`: an existing key is
overwritten in place, a new key is appended. -/
def recordSet (m : List (String × String)) (k v : String) : List (String × String) :=
  if m.any (fun p => p.1 = k) then m.map (fun p => if p.1 = k then (k, v) else p)
  else m ++ [(k, v)]

/-- `getStackOutputs`: describe the stack and fold its `Outputs` into a
key/value record (absent stack or absent `Outputs` give the empty record).
The `describeStack` call itself is recorded by the caller. -/
def getStackOutputs (env : CfnEnv) : List (String × String) :=
  match env.describeStackResult with
  | some d =>
    match d.Outputs with
    | some outs => outs.foldl (fun m kv => recordSet m kv.1 kv.2) []
    | none => []
  | none => []

/-- `makeBodyParameter`: with toolkit storage, upload and return the
`TemplateURL` form; without it, fail when the serialized template exceeds
`LARGE_TEMPLATE_SIZE_KB * 1024`, else inline the `TemplateBody`.  Returns
the body parameter (or the thrown error) plus the events issued. -/
def makeBodyParameter (stack : SynthesizedStack) (toolkitInfo : Option ToolkitInfo) :
    Except String TemplateBodyParameter × List Event :=
  let templateJson := stack.template
  match toolkitInfo with
  | some tk =>
    let key := tk.uploadKey templateJson
    let templateURL := tk.bucketUrl ++ "/" ++ key
    (Except.ok { TemplateBody := none, TemplateURL := some templateURL },
      [Event.upload templateJson])
  | none =>
    if templateJson.length > LARGE_TEMPLATE_SIZE_KB * 1024 then
      (Except.error "Template too large to deploy (\"cdk bootstrap\" is required)", [])
    else
      (Except.ok { TemplateBody := some templateJson, TemplateURL := none }, [])

/-- The emptiness test on the change set description:
`!changeSetDescription || !changeSetDescription.Changes ||
changeSetDescription.Changes.length === 0`. -/
def changesEmpty (csd : Option ChangeSetDescription) : Bool :=
  match csd with
  | none => true
  | some d =>
    match d.Changes with
    | none => true
    | some cs => cs.length = 0

/-- The `createChangeSet` request assembled by `deployStack`:
`ChangeSetType` is `UPDATE` when the stack exists, else `CREATE`; both
IAM capabilities are always requested. -/
def mkChangeSetRequest (options : DeployStackOptions) (env : CfnEnv)
    (deployName : String) (bodyParameter : TemplateBodyParameter) : ChangeSetRequest :=
  { StackName := deployName
    ChangeSetName := "CDK-" ++ env.executionId
    ChangeSetType := if env.stackExists then ChangeSetType.UPDATE else ChangeSetType.CREATE
    Description := "CDK Changeset for execution " ++ env.executionId
    TemplateBody := bodyParameter.TemplateBody
    TemplateURL := bodyParameter.TemplateURL
    Parameters := env.params
    RoleARN := options.roleArn
    Capabilities := ["CAPABILITY_IAM", "CAPABILITY_NAMED_IAM"] }

/-- The tail of `deployStack` from the `stackExists` check onward: create
the change set, wait for it; on an empty change list delete the change set
and return a no-op; otherwise execute it, start the monitor (unless
quiet), wait for the stack, stop the monitor, and return the result. -/
def deployAfterCleanup (options : DeployStackOptions) (env : CfnEnv)
    (deployName : String) (bodyParameter : TemplateBodyParameter)
    (tr : List Event) : DeployOutcome :=
  let changeSetName := "CDK-" ++ env.executionId
  let req := mkChangeSetRequest options env deployName bodyParameter
  let tr1 := tr ++ [Event.stackExistsCheck deployName, Event.createChangeSet req,
    Event.waitForChangeSet deployName changeSetName]
  if changesEmpty env.changeSetDescription then
    let res : DeployStackResult :=
      { noOp := true, outputs := getStackOutputs env,
        stackArn := env.createChangeSetStackId }
    ⟨Except.ok res,
      tr1 ++ [Event.deleteChangeSet deployName changeSetName,
        Event.describeStack deployName]⟩
  else
    let tr2 := tr1 ++ [Event.executeChangeSet deployName changeSetName]
    let tr3 := if options.quiet then tr2 else tr2 ++ [Event.monitorStart deployName]
    let tr4 := tr3 ++ [Event.waitForStack deployName true]
    match env.afterExecute with
    | Except.error e => ⟨Except.error e, tr4⟩
    | Except.ok _ =>
      let tr5 := if options.quiet then tr4 else tr4 ++ [Event.monitorStop deployName]
      let res : DeployStackResult :=
        { noOp := false, outputs := getStackOutputs env,
          stackArn := env.createChangeSetStackId }
      ⟨Except.ok res, tr5 ++ [Event.describeStack deployName]⟩

/-- `deployStack`: fail fast without an environment; compute the body
parameter; if the stack previously failed creating, delete it and await
full deletion (a surviving stack in any state other than
`DELETE_COMPLETE` is fatal); then proceed to the change set phase. -/
def deployStack (options : DeployStackOptions) (env : CfnEnv) : DeployOutcome :=
  match options.stack.environment with
  | none =>
    ⟨Except.error
        ("The stack " ++ options.stack.name ++ " does not have an environment"), []⟩
  | some _ =>
    let deployName := resolveDeployName options.deployName options.stack.name
    match makeBodyParameter options.stack options.toolkitInfo with
    | (Except.error e, evs) => ⟨Except.error e, evs⟩
    | (Except.ok bodyParameter, evs) =>
      let tr0 := evs ++ [Event.stackFailedCreatingCheck deployName]
      if env.stackFailedCreating then
        let tr1 := tr0 ++ [Event.deleteStack deployName,
          Event.waitForStack deployName false]
        match env.afterDeleteStack with
        | Except.error e => ⟨Except.error e, tr1⟩
        | Except.ok deletedStack =>
          match deletedStack with
          | some d =>
            if d.StackStatus ≠ "DELETE_COMPLETE" then
              ⟨Except.error ("Failed deleting stack " ++ deployName ++
                  " that had previously failed creation (current state: " ++
                  d.StackStatus ++ ")"), tr1⟩
            else deployAfterCleanup options env deployName bodyParameter tr1
          | none => deployAfterCleanup options env deployName bodyParameter tr1
      else deployAfterCleanup options env deployName bodyParameter tr0

/-- `destroyStack`: fail fast without an environment; a non-existent stack
is a successful no-op; otherwise start the monitor (unless quiet), delete
the stack, await deletion, stop the monitor, and fail when the survivor is
not in `DELETE_COMPLETE`.  The rendering of the observed status is
modelled from the spec (the `StackStatus` wrapper is not under src/): it
reports the status name. -/
def destroyStack (options : DestroyStackOptions) (env : DestroyEnv) : DestroyOutcome :=
  match options.stack.environment with
  | none =>
    ⟨Except.error
        ("The stack " ++ options.stack.name ++ " does not have an environment"), []⟩
  | some _ =>
    let deployName := resolveDeployName options.deployName options.stack.name
    let tr0 := [Event.stackExistsCheck deployName]
    if !env.stackExists then
      ⟨Except.ok (), tr0⟩
    else
      let tr1 := if options.quiet then tr0 else tr0 ++ [Event.monitorStart deployName]
      let tr2 := tr1 ++ [Event.deleteStack deployName,
        Event.waitForStack deployName false]
      match env.afterDelete with
      | Except.error e => ⟨Except.error e, tr2⟩
      | Except.ok destroyedStack =>
        let tr3 := if options.quiet then tr2 else tr2 ++ [Event.monitorStop deployName]
        match destroyedStack with
        | some d =>
          if d.StackStatus ≠ "DELETE_COMPLETE" then
            ⟨Except.error ("Failed to destroy " ++ deployName ++ ": " ++
                d.StackStatus), tr3⟩
          else ⟨Except.ok (), tr3⟩
        | none => ⟨Except.ok (), tr3⟩

/-- The stale-failed-stack cleanup phase lets the run proceed: either the
stack had not previously failed creating, or the awaited deletion ended
with the stack gone or in `DELETE_COMPLETE`. -/
def cleanupPasses (env : CfnEnv) : Bool :=
  !env.stackFailedCreating ||
    (match env.afterDeleteStack with
     | Except.ok none => true
     | Except.ok (some d) => d.StackStatus = "DELETE_COMPLETE"
     | Except.error _ => false)

/-- `makeBodyParameter` succeeded (did not throw). -/
def bodyOk (stack : SynthesizedStack) (toolkitInfo : Option ToolkitInfo) : Bool :=
  match (makeBodyParameter stack toolkitInfo).1 with
  | Except.ok _ => true
  | Except.error _ => false

/-- An event addresses the deploy name `n`: every control-plane call of
the orchestrator carries the stack (deploy) name it targets; the S3
upload carries none. -/
def eventUsesName (e : Event) (n : String) : Prop :=
  match e with
  | Event.stackFailedCreatingCheck s => s = n
  | Event.deleteStack s => s = n
  | Event.waitForStack s _ => s = n
  | Event.stackExistsCheck s => s = n
  | Event.upload _ => True
  | Event.createChangeSet req => req.StackName = n
  | Event.waitForChangeSet s _ => s = n
  | Event.deleteChangeSet s _ => s = n
  | Event.executeChangeSet s _ => s = n
  | Event.monitorStart s => s = n
  | Event.monitorStop s => s = n
  | Event.describeStack s => s = n

/-! ## Concrete fixtures -/

/-- A small synthesized stack with a resolved environment. -/
def demoStack : SynthesizedStack :=
  { name := "demo", environment := some "aws://123456789012/us-east-1",
    template := "Resources: demo" }

/-- Deploy options for `demoStack` with no toolkit storage. -/
def demoOptions : DeployStackOptions := { stack := demoStack }

/-- Destroy options for `demoStack`. -/
def demoDestroyOptions : DestroyStackOptions := { stack := demoStack }

/-- A toolkit-storage fixture with a constant uploader key. -/
def demoToolkit : ToolkitInfo :=
  { bucketUrl := "https://bucket.s3.amazonaws.com",
    uploadKey := fun _ => "cdk/demo/abcdef.yml" }

/-- Deploy options for `demoStack` with toolkit storage configured. -/
def demoToolkitOptions : DeployStackOptions :=
  { stack := demoStack, toolkitInfo := some demoToolkit }

/-- A stack whose serialized template is one byte over the 50 KiB
threshold. -/
def largeStack : SynthesizedStack :=
  { name := "demo", environment := some "aws://123456789012/us-east-1",
    template := String.replicate 51201 'a' }

/-- Deploy options for `largeStack` with no toolkit storage. -/
def largeOptions : DeployStackOptions := { stack := largeStack }

/-- Control-plane responses for an update whose change set comes back
empty. -/
def envNoOp : CfnEnv :=
  { executionId := "exec-1", stackFailedCreating := false, stackExists := true,
    createChangeSetStackId := "arn:aws:cloudformation:us-east-1:123456789012:stack/demo/abc",
    changeSetDescription := some { Changes := some [] },
    describeStackResult := some { StackStatus := "UPDATE_COMPLETE", Outputs := some [("Out1", "v1")] } }

/-- Control-plane responses for a fresh create with one proposed change
that completes successfully. -/
def envOneChange : CfnEnv :=
  { executionId := "exec-2", stackFailedCreating := false, stackExists := false,
    createChangeSetStackId := "arn:aws:cloudformation:us-east-1:123456789012:stack/demo/def",
    changeSetDescription := some { Changes := some [{ action := "Add" }] },
    describeStackResult := some { StackStatus := "CREATE_COMPLETE", Outputs := some [("Out1", "v1")] },
    afterExecute := Except.ok (some { StackStatus := "CREATE_COMPLETE" }) }

/-- Control-plane responses for a previously-failed stack whose deletion
gets stuck in `DELETE_FAILED`. -/
def envStuckDelete : CfnEnv :=
  { executionId := "exec-3", stackFailedCreating := true,
    afterDeleteStack := Except.ok (some { StackStatus := "DELETE_FAILED" }),
    stackExists := true, createChangeSetStackId := "arn:unused",
    changeSetDescription := none }

/-- Control-plane responses for an update with one proposed change where
waiting for the stack terminates with an error. -/
def envMonitorErr : CfnEnv :=
  { executionId := "exec-4", stackFailedCreating := false, stackExists := true,
    createChangeSetStackId := "arn:aws:cloudformation:us-east-1:123456789012:stack/demo/jkl",
    changeSetDescription := some { Changes := some [{ action := "Modify" }] },
    afterExecute := Except.error "Stack update failed" }

/-- The change set request `deployStack demoOptions envOneChange`
assembles (a CREATE, since `envOneChange.stackExists` is false). -/
def demoCreateRequest : ChangeSetRequest :=
  mkChangeSetRequest demoOptions envOneChange "demo"
    { TemplateBody := some "Resources: demo", TemplateURL := none }

/-- Destroy responses: the stack does not exist. -/
def denvAbsent : DestroyEnv := { stackExists := false }

/-- Destroy responses: the stack survives deletion in `DELETE_FAILED`. -/
def denvStuck : DestroyEnv :=
  { stackExists := true, afterDelete := Except.ok (some { StackStatus := "DELETE_FAILED" }) }

/-- Destroy responses: the stack is gone after deletion. -/
def denvGone : DestroyEnv := { stackExists := true, afterDelete := Except.ok none }

/-! ## Helper lemmas -/

/-- The events issued by `makeBodyParameter` are at most one upload. -/
lemma makeBodyParameter_events (stack : SynthesizedStack) (ti : Option ToolkitInfo) :
    (makeBodyParameter stack ti).2 = [] ∨
      (makeBodyParameter stack ti).2 = [Event.upload stack.template] := by
  cases ti with
  | none =>
    unfold makeBodyParameter
    by_cases h : stack.template.length > LARGE_TEMPLATE_SIZE_KB * 1024 <;> simp [h]
  | some tk => right; rfl

/-- With toolkit storage, `makeBodyParameter` always succeeds with the
URL form of the body parameter. -/
lemma makeBodyParameter_toolkit (stack : SynthesizedStack) (tk : ToolkitInfo) :
    makeBodyParameter stack (some tk) =
      (Except.ok { TemplateBody := none, TemplateURL := some (tk.bucketUrl ++ "/" ++ tk.uploadKey stack.template) },
        [Event.upload stack.template]) := rfl

/-- In a concatenation `l₁ ++ l₂` with `b` not occurring in `l₁`, every
split of the concatenation at an occurrence of `b` keeps all of `l₁` on
the left of the split. -/
lemma mem_left_of_eq_append_cons {α : Type} {b : α} (l₁ : List α) :
    ∀ {l₂ pre post : List α}, l₁ ++ l₂ = pre ++ b :: post → b ∉ l₁ →
      ∀ a ∈ l₁, a ∈ pre := by
  induction l₁ with
  | nil => intro l₂ pre post _ _ a ha; exact absurd ha (List.not_mem_nil a)
  | cons x l₁ ih =>
    intro l₂ pre post h hb a ha
    cases pre with
    | nil =>
      rw [List.cons_append, List.nil_append] at h
      injection h with h1 _
      exact absurd (h1 ▸ List.mem_cons_self x l₁) hb
    | cons y pre' =>
      rw [List.cons_append, List.cons_append] at h
      injection h with h1 h2
      rcases List.mem_cons.mp ha with rfl | ha'
      · exact h1 ▸ List.mem_cons_self y pre'
      · exact List.mem_cons_of_mem y
          (ih h2 (fun hbm => hb (List.mem_cons_of_mem x hbm)) a ha')

/-- Empty change list: `deployAfterCleanup` deletes the change set and
returns a no-op with the current outputs and the created stack id. -/
lemma deployAfterCleanup_empty (options : DeployStackOptions) (env : CfnEnv)
    (dn : String) (bp : TemplateBodyParameter) (tr : List Event)
    (hempty : changesEmpty env.changeSetDescription = true) :
    deployAfterCleanup options env dn bp tr =
      ⟨Except.ok { noOp := true, outputs := getStackOutputs env, stackArn := env.createChangeSetStackId },
        tr ++ [Event.stackExistsCheck dn,
          Event.createChangeSet (mkChangeSetRequest options env dn bp),
          Event.waitForChangeSet dn ("CDK-" ++ env.executionId),
          Event.deleteChangeSet dn ("CDK-" ++ env.executionId),
          Event.describeStack dn]⟩ := by
  unfold deployAfterCleanup
  simp [hempty]

/-- Non-empty change list, successful wait: `deployAfterCleanup` executes
the change set, runs the monitor around the wait (unless quiet) and
returns a non-no-op result. -/
lemma deployAfterCleanup_exec_ok (options : DeployStackOptions) (env : CfnEnv)
    (dn : String) (bp : TemplateBodyParameter) (tr : List Event)
    (st : Option StackDescription)
    (hne : changesEmpty env.changeSetDescription = false)
    (hok : env.afterExecute = Except.ok st) :
    deployAfterCleanup options env dn bp tr =
      ⟨Except.ok { noOp := false, outputs := getStackOutputs env, stackArn := env.createChangeSetStackId },
        tr ++ [Event.stackExistsCheck dn,
            Event.createChangeSet (mkChangeSetRequest options env dn bp),
            Event.waitForChangeSet dn ("CDK-" ++ env.executionId),
            Event.executeChangeSet dn ("CDK-" ++ env.executionId)] ++
          (if options.quiet then [] else [Event.monitorStart dn]) ++
          [Event.waitForStack dn true] ++
          (if options.quiet then [] else [Event.monitorStop dn]) ++
          [Event.describeStack dn]⟩ := by
  unfold deployAfterCleanup
  cases hq : options.quiet <;> simp [hne, hok, hq]

/-- Non-empty change list, failing wait: `deployAfterCleanup` propagates
the error; the monitor (started unless quiet) is never stopped. -/
lemma deployAfterCleanup_exec_err (options : DeployStackOptions) (env : CfnEnv)
    (dn : String) (bp : TemplateBodyParameter) (tr : List Event) (e : String)
    (hne : changesEmpty env.changeSetDescription = false)
    (herr : env.afterExecute = Except.error e) :
    deployAfterCleanup options env dn bp tr =
      ⟨Except.error e,
        tr ++ [Event.stackExistsCheck dn,
            Event.createChangeSet (mkChangeSetRequest options env dn bp),
            Event.waitForChangeSet dn ("CDK-" ++ env.executionId),
            Event.executeChangeSet dn ("CDK-" ++ env.executionId)] ++
          (if options.quiet then [] else [Event.monitorStart dn]) ++
          [Event.waitForStack dn true]⟩ := by
  unfold deployAfterCleanup
  cases hq : options.quiet <;> simp [hne, herr, hq]

/-- When the preflight phases pass, `deployStack` reduces to
`deployAfterCleanup` on a trace whose middle part is one of the two
cleanup-phase shapes. -/
lemma deployStack_cleanup_eq (options : DeployStackOptions) (env : CfnEnv)
    (bp : TemplateBodyParameter) (evs : List Event) (e : String)
    (he : options.stack.environment = some e)
    (hb : makeBodyParameter options.stack options.toolkitInfo = (Except.ok bp, evs))
    (hclean : cleanupPasses env = true) :
    ∃ mid,
      (mid = [Event.stackFailedCreatingCheck
          (resolveDeployName options.deployName options.stack.name)] ∨
        mid = [Event.stackFailedCreatingCheck
            (resolveDeployName options.deployName options.stack.name),
          Event.deleteStack (resolveDeployName options.deployName options.stack.name),
          Event.waitForStack
            (resolveDeployName options.deployName options.stack.name) false]) ∧
      deployStack options env =
        deployAfterCleanup options env
          (resolveDeployName options.deployName options.stack.name) bp (evs ++ mid) := by
  unfold deployStack
  rw [he, hb]
  unfold cleanupPasses at hclean
  cases hf : env.stackFailedCreating with
  | false =>
    exact ⟨_, Or.inl rfl, rfl⟩
  | true =>
    rw [hf] at hclean
    simp only [Bool.not_true, Bool.false_or] at hclean
    cases had : env.afterDeleteStack with
    | error e' => rw [had] at hclean; simp at hclean
    | ok deleted =>
      rw [had] at hclean
      cases deleted with
      | none => exact ⟨_, Or.inr rfl, by simp⟩
      | some d =>
        simp only [decide_eq_true_eq] at hclean
        exact ⟨_, Or.inr rfl, by simp [hclean]⟩

/-- Any `createChangeSet` event in a `deployAfterCleanup` trace either
was already in the given prefix or carries the assembled request. -/
lemma createChangeSet_mem_afterCleanup (options : DeployStackOptions) (env : CfnEnv)
    (dn : String) (bp : TemplateBodyParameter) (tr : List Event) (req : ChangeSetRequest)
    (h : Event.createChangeSet req ∈ (deployAfterCleanup options env dn bp tr).trace) :
    Event.createChangeSet req ∈ tr ∨ req = mkChangeSetRequest options env dn bp := by
  by_cases hemp : changesEmpty env.changeSetDescription = true
  · rw [deployAfterCleanup_empty options env dn bp tr hemp] at h
    simpa using h
  · rw [Bool.not_eq_true] at hemp
    cases hex : env.afterExecute with
    | ok st =>
      rw [deployAfterCleanup_exec_ok options env dn bp tr st hemp hex] at h
      cases hq : options.quiet <;> rw [hq] at h <;> simpa using h
    | error e =>
      rw [deployAfterCleanup_exec_err options env dn bp tr e hemp hex] at h
      cases hq : options.quiet <;> rw [hq] at h <;> simpa using h

/-- Any `createChangeSet` event in a `deployStack` trace carries the
request assembled by `mkChangeSetRequest` from a successfully computed
body parameter. -/
lemma createChangeSet_mem_deployStack (options : DeployStackOptions) (env : CfnEnv)
    (req : ChangeSetRequest)
    (h : Event.createChangeSet req ∈ (deployStack options env).trace) :
    ∃ bp evs, makeBodyParameter options.stack options.toolkitInfo = (Except.ok bp, evs) ∧
      req = mkChangeSetRequest options env
        (resolveDeployName options.deployName options.stack.name) bp := by
  unfold deployStack at h
  split at h
  · simp at h
  · split at h
    all_goals rename_i bres evs heq
    all_goals have hevs := makeBodyParameter_events options.stack options.toolkitInfo
    all_goals rw [heq] at hevs
    all_goals dsimp only at hevs
    · have hnot : Event.createChangeSet req ∉ evs := by
        rcases hevs with rfl | rfl <;> simp
      exact absurd (by simpa using h) hnot
    · have hnot : Event.createChangeSet req ∉ evs := by
        rcases hevs with rfl | rfl <;> simp
      refine ⟨bres, evs, heq, ?_⟩
      split at h
      · split at h
        · simp at h
          exact absurd h hnot
        · rename_i deleted
          split at h
          · split at h
            · simp at h
              exact absurd h hnot
            · rcases createChangeSet_mem_afterCleanup _ _ _ _ _ _ h with hmem | hreq
              · exact absurd (by simpa using hmem) (by simpa using hnot)
              · exact hreq
          · rcases createChangeSet_mem_afterCleanup _ _ _ _ _ _ h with hmem | hreq
            · exact absurd (by simpa using hmem) (by simpa using hnot)
            · exact hreq
      · rcases createChangeSet_mem_afterCleanup _ _ _ _ _ _ h with hmem | hreq
        · exact absurd (by simpa using hmem) (by simpa using hnot)
        · exact hreq

/-- The `deployAfterCleanup` trace extends the given trace. -/
lemma afterCleanup_trace_prefix (options : DeployStackOptions) (env : CfnEnv)
    (dn : String) (bp : TemplateBodyParameter) (tr : List Event) :
    ∃ l₂, (deployAfterCleanup options env dn bp tr).trace = tr ++ l₂ := by
  by_cases hemp : changesEmpty env.changeSetDescription = true
  · exact ⟨_, by rw [deployAfterCleanup_empty options env dn bp tr hemp]⟩
  · rw [Bool.not_eq_true] at hemp
    cases hex : env.afterExecute with
    | ok st =>
      refine ⟨[Event.stackExistsCheck dn,
          Event.createChangeSet (mkChangeSetRequest options env dn bp),
          Event.waitForChangeSet dn ("CDK-" ++ env.executionId),
          Event.executeChangeSet dn ("CDK-" ++ env.executionId)] ++
          (if options.quiet then [] else [Event.monitorStart dn]) ++
          [Event.waitForStack dn true] ++
          (if options.quiet then [] else [Event.monitorStop dn]) ++
          [Event.describeStack dn], ?_⟩
      rw [deployAfterCleanup_exec_ok options env dn bp tr st hemp hex]
      simp [List.append_assoc]
    | error e =>
      refine ⟨[Event.stackExistsCheck dn,
          Event.createChangeSet (mkChangeSetRequest options env dn bp),
          Event.waitForChangeSet dn ("CDK-" ++ env.executionId),
          Event.executeChangeSet dn ("CDK-" ++ env.executionId)] ++
          (if options.quiet then [] else [Event.monitorStart dn]) ++
          [Event.waitForStack dn true], ?_⟩
      rw [deployAfterCleanup_exec_err options env dn bp tr e hemp hex]
      simp [List.append_assoc]

/-- The result of `deployAfterCleanup` does not depend on the options
(in particular the quiet flag), the deploy name, or the trace prefix. -/
lemma deployAfterCleanup_result_eq (o₁ o₂ : DeployStackOptions) (env : CfnEnv)
    (dn₁ dn₂ : String) (bp₁ bp₂ : TemplateBodyParameter) (tr₁ tr₂ : List Event) :
    (deployAfterCleanup o₁ env dn₁ bp₁ tr₁).result =
      (deployAfterCleanup o₂ env dn₂ bp₂ tr₂).result := by
  unfold deployAfterCleanup
  by_cases hemp : changesEmpty env.changeSetDescription = true
  · simp [hemp]
  · rw [Bool.not_eq_true] at hemp
    cases hex : env.afterExecute <;>
      cases h₁ : o₁.quiet <;> cases h₂ : o₂.quiet <;> simp [hemp, hex]

/-- Every event of a `deployAfterCleanup` trace whose prefix addresses
the deploy name also addresses the deploy name. -/
lemma afterCleanup_uses_name (options : DeployStackOptions) (env : CfnEnv)
    (dn : String) (bp : TemplateBodyParameter) (tr : List Event)
    (htr : ∀ ev ∈ tr, eventUsesName ev dn) :
    ∀ ev ∈ (deployAfterCleanup options env dn bp tr).trace, eventUsesName ev dn := by
  intro ev hev
  by_cases hemp : changesEmpty env.changeSetDescription = true
  · rw [deployAfterCleanup_empty options env dn bp tr hemp] at hev
    simp at hev
    rcases hev with hev | rfl | rfl | rfl | rfl | rfl
    · exact htr ev hev
    all_goals simp [eventUsesName, mkChangeSetRequest]
  · rw [Bool.not_eq_true] at hemp
    cases hex : env.afterExecute with
    | ok st =>
      rw [deployAfterCleanup_exec_ok options env dn bp tr st hemp hex] at hev
      cases hq : options.quiet <;> rw [hq] at hev <;> simp at hev
      · rcases hev with hev | rfl | rfl | rfl | rfl | rfl | rfl | rfl | rfl
        · exact htr ev hev
        all_goals simp [eventUsesName, mkChangeSetRequest]
      · rcases hev with hev | rfl | rfl | rfl | rfl | rfl | rfl
        · exact htr ev hev
        all_goals simp [eventUsesName, mkChangeSetRequest]
    | error e =>
      rw [deployAfterCleanup_exec_err options env dn bp tr e hemp hex] at hev
      cases hq : options.quiet <;> rw [hq] at hev <;> simp at hev
      · rcases hev with hev | rfl | rfl | rfl | rfl | rfl | rfl
        · exact htr ev hev
        all_goals simp [eventUsesName, mkChangeSetRequest]
      · rcases hev with hev | rfl | rfl | rfl | rfl | rfl
        · exact htr ev hev
        all_goals simp [eventUsesName, mkChangeSetRequest]

/-- The events of `makeBodyParameter` address any name (the only
possible event is an upload). -/
lemma bodyEvents_use_name (stack : SynthesizedStack) (ti : Option ToolkitInfo) (n : String) :
    ∀ e' ∈ (makeBodyParameter stack ti).2, eventUsesName e' n := by
  intro e' he'
  rcases makeBodyParameter_events stack ti with h | h <;> rw [h] at he'
  · simp at he'
  · simp at he'
    subst he'
    trivial

/-- Every event in a `deployStack` trace addresses the resolved deploy
name. -/
lemma deployStack_uses_name (options : DeployStackOptions) (env : CfnEnv) :
    ∀ ev ∈ (deployStack options env).trace,
      eventUsesName ev (resolveDeployName options.deployName options.stack.name) := by
  intro ev hev
  unfold deployStack at hev
  split at hev
  · simp at hev
  · split at hev
    all_goals rename_i bres evs heq
    all_goals have hevsN := bodyEvents_use_name options.stack options.toolkitInfo (resolveDeployName options.deployName options.stack.name)
    all_goals rw [heq] at hevsN
    all_goals dsimp only at hevsN
    · exact hevsN ev (by simpa using hev)
    · have htr1 : ∀ e' ∈ evs ++
          [Event.stackFailedCreatingCheck (resolveDeployName options.deployName options.stack.name),
            Event.deleteStack (resolveDeployName options.deployName options.stack.name),
            Event.waitForStack (resolveDeployName options.deployName options.stack.name) false],
          eventUsesName e' (resolveDeployName options.deployName options.stack.name) := by
        intro e' he'
        simp at he'
        rcases he' with he' | rfl | rfl | rfl
        · exact hevsN e' he'
        all_goals simp [eventUsesName]
      have htr0 : ∀ e' ∈ evs ++
          [Event.stackFailedCreatingCheck (resolveDeployName options.deployName options.stack.name)],
          eventUsesName e' (resolveDeployName options.deployName options.stack.name) := by
        intro e' he'
        simp at he'
        rcases he' with he' | rfl
        · exact hevsN e' he'
        · simp [eventUsesName]
      split at hev
      · split at hev
        · exact htr1 ev (by simpa using hev)
        · split at hev
          · split at hev
            · exact htr1 ev (by simpa using hev)
            · exact afterCleanup_uses_name _ _ _ _ _ (by simpa using htr1) ev hev
          · exact afterCleanup_uses_name _ _ _ _ _ (by simpa using htr1) ev hev
      · exact afterCleanup_uses_name _ _ _ _ _ (by simpa using htr0) ev hev

/-- The trace of `destroyStack` on an existing stack: existence check,
monitor start (unless quiet), delete, wait, and — only when the wait
returns — monitor stop (unless quiet). -/
lemma destroyStack_trace_exists (options : DestroyStackOptions) (env : DestroyEnv) (e : String)
    (he : options.stack.environment = some e) (hex : env.stackExists = true) :
    (destroyStack options env).trace =
      [Event.stackExistsCheck (resolveDeployName options.deployName options.stack.name)] ++
        (if options.quiet then [] else
          [Event.monitorStart (resolveDeployName options.deployName options.stack.name)]) ++
        [Event.deleteStack (resolveDeployName options.deployName options.stack.name),
          Event.waitForStack (resolveDeployName options.deployName options.stack.name) false] ++
        (match env.afterDelete with
          | Except.error _ => []
          | Except.ok _ =>
            if options.quiet then []
            else [Event.monitorStop
              (resolveDeployName options.deployName options.stack.name)]) := by
  unfold destroyStack
  rw [he]
  cases hq : options.quiet with
  | false =>
    cases had : env.afterDelete with
    | error e' => simp [hex, had]
    | ok deleted =>
      cases deleted with
      | none => simp [hex, had]
      | some d =>
        by_cases hst : d.StackStatus = "DELETE_COMPLETE" <;> simp [hex, had, hst]
  | true =>
    cases had : env.afterDelete with
    | error e' => simp [hex, had]
    | ok deleted =>
      cases deleted with
      | none => simp [hex, had]
      | some d =>
        by_cases hst : d.StackStatus = "DELETE_COMPLETE" <;> simp [hex, had, hst]

/-- The result of `destroyStack` on an existing stack is determined by
the post-delete wait alone (independent of the quiet flag). -/
lemma destroyStack_result_exists (options : DestroyStackOptions) (env : DestroyEnv) (e : String)
    (he : options.stack.environment = some e) (hex : env.stackExists = true) :
    (destroyStack options env).result =
      (match env.afterDelete with
        | Except.error e' => Except.error e'
        | Except.ok none => Except.ok ()
        | Except.ok (some d) =>
          if d.StackStatus ≠ "DELETE_COMPLETE" then
            Except.error ("Failed to destroy " ++
              resolveDeployName options.deployName options.stack.name ++
              ": " ++ d.StackStatus)
          else Except.ok ()) := by
  unfold destroyStack
  rw [he]
  cases hq : options.quiet with
  | false =>
    cases had : env.afterDelete with
    | error e' => simp [hex, had]
    | ok deleted =>
      cases deleted with
      | none => simp [hex, had]
      | some d =>
        by_cases hst : d.StackStatus = "DELETE_COMPLETE" <;> simp [hex, had, hst]
  | true =>
    cases had : env.afterDelete with
    | error e' => simp [hex, had]
    | ok deleted =>
      cases deleted with
      | none => simp [hex, had]
      | some d =>
        by_cases hst : d.StackStatus = "DELETE_COMPLETE" <;> simp [hex, had, hst]

/-- Every event in a `destroyStack` trace addresses the resolved deploy
name. -/
lemma destroyStack_uses_name (options : DestroyStackOptions) (env : DestroyEnv) :
    ∀ ev ∈ (destroyStack options env).trace,
      eventUsesName ev (resolveDeployName options.deployName options.stack.name) := by
  intro ev hev
  cases he : options.stack.environment with
  | none =>
    unfold destroyStack at hev
    rw [he] at hev
    simp at hev
  | some e =>
    cases hex : env.stackExists with
    | false =>
      unfold destroyStack at hev
      rw [he] at hev
      simp [hex] at hev
      subst hev
      simp [eventUsesName]
    | true =>
      rw [destroyStack_trace_exists options env e he hex] at hev
      cases hq : options.quiet <;> rw [hq] at hev <;>
        cases had : env.afterDelete <;> rw [had] at hev <;> simp at hev
      · rcases hev with rfl | rfl | rfl | rfl <;> simp [eventUsesName]
      · rcases hev with rfl | rfl | rfl | rfl | rfl <;> simp [eventUsesName]
      · rcases hev with rfl | rfl | rfl <;> simp [eventUsesName]
      · rcases hev with rfl | rfl | rfl <;> simp [eventUsesName]

/-! ## Claim theorems -/

/-- Claim C3: with no toolkit configured and a serialized template larger
than 50 KiB (`LARGE_TEMPLATE_SIZE_KB * 1024` bytes), `deployStack` throws
the size-threshold remediation error (naming the required "cdk bootstrap"
step) with an empty trace, i.e. before any control-plane call; templates
at or below the threshold are inlined as `TemplateBody`. -/
theorem deployStack_template_too_large (options : DeployStackOptions) (env : CfnEnv)
    (henv : options.stack.environment.isSome = true)
    (htk : options.toolkitInfo = none)
    (hsize : options.stack.template.length > LARGE_TEMPLATE_SIZE_KB * 1024) :
    (deployStack options env).result =
        Except.error "Template too large to deploy (\"cdk bootstrap\" is required)" ∧
      (deployStack options env).trace = [] ∧
      ∀ stack : SynthesizedStack, stack.template.length ≤ LARGE_TEMPLATE_SIZE_KB * 1024 →
        makeBodyParameter stack none =
          (Except.ok { TemplateBody := some stack.template, TemplateURL := none }, []) := by
  obtain ⟨e, he⟩ := Option.isSome_iff_exists.mp henv
  have hb : makeBodyParameter options.stack options.toolkitInfo =
      (Except.error "Template too large to deploy (\"cdk bootstrap\" is required)", []) := by
    rw [htk]; unfold makeBodyParameter; simp [hsize]
  have hds : deployStack options env =
      ⟨Except.error "Template too large to deploy (\"cdk bootstrap\" is required)", []⟩ := by
    unfold deployStack; rw [he, hb]
  refine ⟨by rw [hds], by rw [hds], ?_⟩
  intro stack hle
  unfold makeBodyParameter
  simp [Nat.not_lt.mpr hle]

/-- Witness for C3 at `largeOptions` (a 51201-byte template, no toolkit). -/
theorem deployStack_template_too_large_witness :
    largeOptions.stack.environment.isSome = true ∧
      largeOptions.toolkitInfo = none ∧
      largeOptions.stack.template.length > LARGE_TEMPLATE_SIZE_KB * 1024 ∧
      ((deployStack largeOptions envNoOp).result =
          Except.error "Template too large to deploy (\"cdk bootstrap\" is required)" ∧
        (deployStack largeOptions envNoOp).trace = [] ∧
        ∀ stack : SynthesizedStack, stack.template.length ≤ LARGE_TEMPLATE_SIZE_KB * 1024 →
          makeBodyParameter stack none =
            (Except.ok { TemplateBody := some stack.template, TemplateURL := none }, [])) :=
  ⟨rfl, rfl, by simp [largeOptions, largeStack, LARGE_TEMPLATE_SIZE_KB],
    deployStack_template_too_large largeOptions envNoOp rfl rfl
      (by simp [largeOptions, largeStack, LARGE_TEMPLATE_SIZE_KB])⟩

/-- Claim C5: when the stack still exists after the delete request with a
terminal status other than `DELETE_COMPLETE`, `destroyStack` throws an
error naming the deploy name and the observed status; when the stack is
absent (before or after the delete) or ends in `DELETE_COMPLETE`, it
returns normally. -/
theorem destroyStack_status_error (options : DestroyStackOptions) (env : DestroyEnv)
    (henv : options.stack.environment.isSome = true) :
    (∀ d : StackDescription, env.stackExists = true →
        env.afterDelete = Except.ok (some d) → d.StackStatus ≠ "DELETE_COMPLETE" →
        (destroyStack options env).result =
          Except.error ("Failed to destroy " ++
            resolveDeployName options.deployName options.stack.name ++
            ": " ++ d.StackStatus)) ∧
      ((env.stackExists = false ∨ env.afterDelete = Except.ok none ∨
          ∃ d : StackDescription, env.afterDelete = Except.ok (some d) ∧
            d.StackStatus = "DELETE_COMPLETE") →
        (destroyStack options env).result = Except.ok ()) := by
  obtain ⟨e, he⟩ := Option.isSome_iff_exists.mp henv
  constructor
  · intro d hex had hst
    unfold destroyStack
    rw [he]
    cases hq : options.quiet <;> simp [hex, had, hst, hq]
  · intro h
    cases hex : env.stackExists with
    | false => unfold destroyStack; rw [he]; simp [hex]
    | true =>
      rcases h with h | had | ⟨d, had, hst⟩
      · exact absurd hex (by rw [h]; exact Bool.false_ne_true)
      · unfold destroyStack
        rw [he]
        cases hq : options.quiet <;> simp [hex, had, hq]
      · unfold destroyStack
        rw [he]
        cases hq : options.quiet <;> simp [hex, had, hst, hq]

/-- Witness for C5 at `denvStuck` (survivor in `DELETE_FAILED`). -/
theorem destroyStack_status_error_witness :
    demoDestroyOptions.stack.environment.isSome = true ∧
      ((∀ d : StackDescription, denvStuck.stackExists = true →
          denvStuck.afterDelete = Except.ok (some d) → d.StackStatus ≠ "DELETE_COMPLETE" →
          (destroyStack demoDestroyOptions denvStuck).result =
            Except.error ("Failed to destroy " ++
              resolveDeployName demoDestroyOptions.deployName demoDestroyOptions.stack.name ++
              ": " ++ d.StackStatus)) ∧
        ((denvStuck.stackExists = false ∨ denvStuck.afterDelete = Except.ok none ∨
            ∃ d : StackDescription, denvStuck.afterDelete = Except.ok (some d) ∧
              d.StackStatus = "DELETE_COMPLETE") →
          (destroyStack demoDestroyOptions denvStuck).result = Except.ok ())) :=
  ⟨rfl, destroyStack_status_error demoDestroyOptions denvStuck rfl⟩

/-- Claim C6: destroying a stack that does not exist is a successful
no-op: the trace holds only the existence check, so no `deleteStack` call
is issued and no activity monitor is started. -/
theorem destroyStack_idempotent (options : DestroyStackOptions) (env : DestroyEnv)
    (henv : options.stack.environment.isSome = true)
    (habsent : env.stackExists = false) :
    (destroyStack options env).result = Except.ok () ∧
      (destroyStack options env).trace =
        [Event.stackExistsCheck (resolveDeployName options.deployName options.stack.name)] ∧
      (∀ s, Event.deleteStack s ∉ (destroyStack options env).trace) ∧
      ∀ s, Event.monitorStart s ∉ (destroyStack options env).trace := by
  obtain ⟨e, he⟩ := Option.isSome_iff_exists.mp henv
  have h : destroyStack options env =
      ⟨Except.ok (),
        [Event.stackExistsCheck (resolveDeployName options.deployName options.stack.name)]⟩ := by
    unfold destroyStack; rw [he]; simp [habsent]
  rw [h]
  exact ⟨rfl, rfl, fun s => by simp, fun s => by simp⟩

/-- Claim C1: when the preflight phases pass and `waitForChangeSet`
reports an empty (or absent) change list, `deployStack` returns a no-op
result carrying the current stack outputs and the `StackId` of the
`createChangeSet` response, deletes the created change set, and never
calls `executeChangeSet`. -/
theorem deployStack_noop (options : DeployStackOptions) (env : CfnEnv)
    (bp : TemplateBodyParameter) (evs : List Event)
    (henv : options.stack.environment.isSome = true)
    (hbody : makeBodyParameter options.stack options.toolkitInfo = (Except.ok bp, evs))
    (hclean : cleanupPasses env = true)
    (hempty : changesEmpty env.changeSetDescription = true) :
    (deployStack options env).result =
        Except.ok { noOp := true, outputs := getStackOutputs env, stackArn := env.createChangeSetStackId } ∧
      Event.deleteChangeSet (resolveDeployName options.deployName options.stack.name)
          ("CDK-" ++ env.executionId) ∈ (deployStack options env).trace ∧
      ∀ s c, Event.executeChangeSet s c ∉ (deployStack options env).trace := by
  obtain ⟨e, he⟩ := Option.isSome_iff_exists.mp henv
  obtain ⟨mid, hmid, heq⟩ := deployStack_cleanup_eq options env bp evs e he hbody hclean
  rw [heq, deployAfterCleanup_empty options env _ bp _ hempty]
  have hevs := makeBodyParameter_events options.stack options.toolkitInfo
  rw [hbody] at hevs
  dsimp only at hevs
  refine ⟨rfl, by simp, ?_⟩
  intro s c
  rcases hevs with rfl | rfl <;> rcases hmid with rfl | rfl <;> simp

/-- Witness for C1 at `demoOptions` / `envNoOp`. -/
theorem deployStack_noop_witness :
    demoOptions.stack.environment.isSome = true ∧
      makeBodyParameter demoOptions.stack demoOptions.toolkitInfo =
        (Except.ok { TemplateBody := some "Resources: demo", TemplateURL := none }, []) ∧
      cleanupPasses envNoOp = true ∧
      changesEmpty envNoOp.changeSetDescription = true ∧
      ((deployStack demoOptions envNoOp).result =
          Except.ok { noOp := true, outputs := getStackOutputs envNoOp, stackArn := envNoOp.createChangeSetStackId } ∧
        Event.deleteChangeSet (resolveDeployName demoOptions.deployName demoOptions.stack.name)
            ("CDK-" ++ envNoOp.executionId) ∈ (deployStack demoOptions envNoOp).trace ∧
        ∀ s c, Event.executeChangeSet s c ∉ (deployStack demoOptions envNoOp).trace) :=
  ⟨rfl, by decide, rfl, rfl,
    deployStack_noop demoOptions envNoOp
      { TemplateBody := some "Resources: demo", TemplateURL := none } []
      rfl (by decide) rfl rfl⟩

/-- Claim C2: every `createChangeSet` request issued by `deployStack` has
`ChangeSetType` CREATE exactly when `stackExists` reported the stack as
absent, and UPDATE exactly when it reported it as existing. -/
theorem deployStack_change_set_type (options : DeployStackOptions) (env : CfnEnv)
    (req : ChangeSetRequest)
    (h : Event.createChangeSet req ∈ (deployStack options env).trace) :
    (req.ChangeSetType = ChangeSetType.CREATE ↔ env.stackExists = false) ∧
      (req.ChangeSetType = ChangeSetType.UPDATE ↔ env.stackExists = true) := by
  obtain ⟨bp, evs, _, rfl⟩ := createChangeSet_mem_deployStack options env req h
  unfold mkChangeSetRequest
  cases hex : env.stackExists <;> simp

/-- Witness for C2 at `demoOptions` / `envOneChange` (a CREATE). -/
theorem deployStack_change_set_type_witness :
    Event.createChangeSet demoCreateRequest ∈ (deployStack demoOptions envOneChange).trace ∧
      ((demoCreateRequest.ChangeSetType = ChangeSetType.CREATE ↔ envOneChange.stackExists = false) ∧
        (demoCreateRequest.ChangeSetType = ChangeSetType.UPDATE ↔ envOneChange.stackExists = true)) :=
  ⟨by decide,
    deployStack_change_set_type demoOptions envOneChange demoCreateRequest (by decide)⟩

/-- Claim C7: with toolkit storage configured, every `createChangeSet`
request issued by `deployStack` uses the `TemplateURL` form (the uploaded
object URL) and never `TemplateBody`, regardless of template size; the
body parameter is a function of the template content (the modelled
`uploadIfChanged` is idempotent, so identical content yields an identical
key). -/
theorem deployStack_toolkit_url (options : DeployStackOptions) (env : CfnEnv)
    (tk : ToolkitInfo)
    (htk : options.toolkitInfo = some tk) :
    (∀ req, Event.createChangeSet req ∈ (deployStack options env).trace →
        req.TemplateBody = none ∧
          req.TemplateURL = some (tk.bucketUrl ++ "/" ++ tk.uploadKey options.stack.template)) ∧
      ∀ s₁ s₂ : SynthesizedStack, s₁.template = s₂.template →
        (makeBodyParameter s₁ (some tk)).1 = (makeBodyParameter s₂ (some tk)).1 := by
  constructor
  · intro req h
    obtain ⟨bp, evs, hb, rfl⟩ := createChangeSet_mem_deployStack options env req h
    rw [htk, makeBodyParameter_toolkit options.stack tk] at hb
    injection hb with h1 _
    injection h1 with h1
    rw [← h1]
    exact ⟨rfl, rfl⟩
  · intro s₁ s₂ hts
    rw [makeBodyParameter_toolkit, makeBodyParameter_toolkit]
    simp [hts]

/-- Witness for C7 at `demoToolkitOptions` / `envNoOp`. -/
theorem deployStack_toolkit_url_witness :
    demoToolkitOptions.toolkitInfo = some demoToolkit ∧
      ((∀ req, Event.createChangeSet req ∈ (deployStack demoToolkitOptions envNoOp).trace →
          req.TemplateBody = none ∧
            req.TemplateURL = some (demoToolkit.bucketUrl ++ "/" ++
              demoToolkit.uploadKey demoToolkitOptions.stack.template)) ∧
        ∀ s₁ s₂ : SynthesizedStack, s₁.template = s₂.template →
          (makeBodyParameter s₁ (some demoToolkit)).1 =
            (makeBodyParameter s₂ (some demoToolkit)).1) :=
  ⟨rfl, deployStack_toolkit_url demoToolkitOptions envNoOp demoToolkit rfl⟩

/-- Claim C9: the quiet flag changes only observability (whether the
activity monitor runs), never the functional outcome: two runs of
`deployStack` (or `destroyStack`) that differ only in `quiet` and observe
the same control-plane responses return the same result or throw the same
error. -/
theorem quiet_mode_noninterference (options : DeployStackOptions) (env : CfnEnv)
    (doptions : DestroyStackOptions) (denv : DestroyEnv) (q₁ q₂ : Bool) :
    (deployStack { options with quiet := q₁ } env).result =
        (deployStack { options with quiet := q₂ } env).result ∧
      (destroyStack { doptions with quiet := q₁ } denv).result =
        (destroyStack { doptions with quiet := q₂ } denv).result := by
  constructor
  · unfold deployStack
    dsimp only
    cases he : options.stack.environment with
    | none => rfl
    | some e =>
      rcases hb : makeBodyParameter options.stack options.toolkitInfo with ⟨bres, evs⟩
      cases bres with
      | error e' => rfl
      | ok bp =>
        cases hf : env.stackFailedCreating with
        | false => exact deployAfterCleanup_result_eq _ _ env _ _ _ _ _ _
        | true =>
          cases had : env.afterDeleteStack with
          | error e' => rfl
          | ok deleted =>
            cases deleted with
            | none => exact deployAfterCleanup_result_eq _ _ env _ _ _ _ _ _
            | some d =>
              dsimp only
              by_cases hst : d.StackStatus = "DELETE_COMPLETE"
              · rw [if_neg (not_not_intro hst), if_neg (not_not_intro hst)]
                exact deployAfterCleanup_result_eq _ _ env _ _ _ _ _ _
              · rw [if_pos hst, if_pos hst]
                rfl
  · cases he : doptions.stack.environment with
    | none => unfold destroyStack; dsimp only; rw [he]
    | some e =>
      cases hex : denv.stackExists with
      | false => unfold destroyStack; dsimp only; rw [he]; simp [hex]
      | true =>
        rw [destroyStack_result_exists { doptions with quiet := q₁ } denv e he hex,
          destroyStack_result_exists { doptions with quiet := q₂ } denv e he hex]

/-- Claim C10: an absent or empty `deployName` defaults to the stack's
own name: every control-plane event issued by `deployStack` and
`destroyStack` then addresses `options.stack.name`. -/
theorem deployName_defaults_to_stack_name (options : DeployStackOptions) (env : CfnEnv)
    (doptions : DestroyStackOptions) (denv : DestroyEnv)
    (h1 : options.deployName = none ∨ options.deployName = some "")
    (h2 : doptions.deployName = none ∨ doptions.deployName = some "") :
    (∀ ev ∈ (deployStack options env).trace, eventUsesName ev options.stack.name) ∧
      ∀ ev ∈ (destroyStack doptions denv).trace, eventUsesName ev doptions.stack.name := by
  have r1 : resolveDeployName options.deployName options.stack.name = options.stack.name := by
    rcases h1 with h | h <;> simp [resolveDeployName, h]
  have r2 : resolveDeployName doptions.deployName doptions.stack.name =
      doptions.stack.name := by
    rcases h2 with h | h <;> simp [resolveDeployName, h]
  constructor
  · intro ev hev
    have h := deployStack_uses_name options env ev hev
    rwa [r1] at h
  · intro ev hev
    have h := destroyStack_uses_name doptions denv ev hev
    rwa [r2] at h

/-- Witness for C10 at `demoOptions` (deployName absent). -/
theorem deployName_defaults_to_stack_name_witness :
    (demoOptions.deployName = none ∨ demoOptions.deployName = some "") ∧
      (demoDestroyOptions.deployName = none ∨ demoDestroyOptions.deployName = some "") ∧
      ((∀ ev ∈ (deployStack demoOptions envOneChange).trace,
          eventUsesName ev demoOptions.stack.name) ∧
        ∀ ev ∈ (destroyStack demoDestroyOptions denvGone).trace,
          eventUsesName ev demoDestroyOptions.stack.name) :=
  ⟨Or.inl rfl, Or.inl rfl,
    deployName_defaults_to_stack_name demoOptions envOneChange demoDestroyOptions denvGone
      (Or.inl rfl) (Or.inl rfl)⟩

/-- Claim C4: when the stack previously failed creating, `deployStack`
issues `deleteStack` and awaits the deletion strictly before any
`createChangeSet`; and when the awaited stack survives with a status
other than `DELETE_COMPLETE`, it throws the fatal cleanup error and never
creates a change set. -/
theorem deployStack_failed_creating (options : DeployStackOptions) (env : CfnEnv)
    (bp : TemplateBodyParameter) (evs : List Event)
    (henv : options.stack.environment.isSome = true)
    (hbody : makeBodyParameter options.stack options.toolkitInfo = (Except.ok bp, evs))
    (hfailed : env.stackFailedCreating = true) :
    (∀ req pre post,
        (deployStack options env).trace = pre ++ Event.createChangeSet req :: post →
        Event.deleteStack (resolveDeployName options.deployName options.stack.name) ∈ pre ∧
          Event.waitForStack (resolveDeployName options.deployName options.stack.name) false ∈ pre) ∧
      ∀ d : StackDescription, env.afterDeleteStack = Except.ok (some d) →
        d.StackStatus ≠ "DELETE_COMPLETE" →
        (deployStack options env).result =
            Except.error ("Failed deleting stack " ++
              resolveDeployName options.deployName options.stack.name ++
              " that had previously failed creation (current state: " ++
              d.StackStatus ++ ")") ∧
          ∀ req, Event.createChangeSet req ∉ (deployStack options env).trace := by
  obtain ⟨e, he⟩ := Option.isSome_iff_exists.mp henv
  have hevs := makeBodyParameter_events options.stack options.toolkitInfo
  rw [hbody] at hevs
  dsimp only at hevs
  rcases had : env.afterDeleteStack with e' | deleted
  · have hds : deployStack options env =
        ⟨Except.error e', evs ++
          [Event.stackFailedCreatingCheck (resolveDeployName options.deployName options.stack.name),
            Event.deleteStack (resolveDeployName options.deployName options.stack.name),
            Event.waitForStack (resolveDeployName options.deployName options.stack.name) false]⟩ := by
      unfold deployStack
      rw [he, hbody]
      simp [hfailed, had]
    constructor
    · intro req pre post htr
      rw [hds] at htr
      dsimp only at htr
      have hmem : Event.createChangeSet req ∈ evs ++
          [Event.stackFailedCreatingCheck (resolveDeployName options.deployName options.stack.name),
            Event.deleteStack (resolveDeployName options.deployName options.stack.name),
            Event.waitForStack (resolveDeployName options.deployName options.stack.name) false] := by
        rw [htr]; simp
      rcases hevs with rfl | rfl <;> simp at hmem
    · intro d had'
      simp at had'
  · cases deleted with
    | none =>
      have hds : deployStack options env =
          deployAfterCleanup options env
            (resolveDeployName options.deployName options.stack.name) bp
            (evs ++
              [Event.stackFailedCreatingCheck (resolveDeployName options.deployName options.stack.name),
                Event.deleteStack (resolveDeployName options.deployName options.stack.name),
                Event.waitForStack (resolveDeployName options.deployName options.stack.name) false]) := by
        unfold deployStack
        rw [he, hbody]
        simp [hfailed, had]
      constructor
      · intro req pre post htr
        rw [hds] at htr
        obtain ⟨l₂, hl₂⟩ := afterCleanup_trace_prefix options env
          (resolveDeployName options.deployName options.stack.name) bp _
        rw [hl₂] at htr
        have hnot : Event.createChangeSet req ∉ evs ++
            [Event.stackFailedCreatingCheck (resolveDeployName options.deployName options.stack.name),
              Event.deleteStack (resolveDeployName options.deployName options.stack.name),
              Event.waitForStack (resolveDeployName options.deployName options.stack.name) false] := by
          rcases hevs with rfl | rfl <;> simp
        have hall := mem_left_of_eq_append_cons _ htr hnot
        exact ⟨hall _ (by simp), hall _ (by simp)⟩
      · intro d had'
        simp at had'
    | some d0 =>
      by_cases hst0 : d0.StackStatus = "DELETE_COMPLETE"
      · have hds : deployStack options env =
            deployAfterCleanup options env
              (resolveDeployName options.deployName options.stack.name) bp
              (evs ++
                [Event.stackFailedCreatingCheck (resolveDeployName options.deployName options.stack.name),
                  Event.deleteStack (resolveDeployName options.deployName options.stack.name),
                  Event.waitForStack (resolveDeployName options.deployName options.stack.name) false]) := by
          unfold deployStack
          rw [he, hbody]
          simp [hfailed, had, hst0]
        constructor
        · intro req pre post htr
          rw [hds] at htr
          obtain ⟨l₂, hl₂⟩ := afterCleanup_trace_prefix options env
            (resolveDeployName options.deployName options.stack.name) bp _
          rw [hl₂] at htr
          have hnot : Event.createChangeSet req ∉ evs ++
              [Event.stackFailedCreatingCheck (resolveDeployName options.deployName options.stack.name),
                Event.deleteStack (resolveDeployName options.deployName options.stack.name),
                Event.waitForStack (resolveDeployName options.deployName options.stack.name) false] := by
            rcases hevs with rfl | rfl <;> simp
          have hall := mem_left_of_eq_append_cons _ htr hnot
          exact ⟨hall _ (by simp), hall _ (by simp)⟩
        · intro d had' hst
          injection had' with h1
          injection h1 with h2
          subst h2
          exact absurd hst0 hst
      · have hds : deployStack options env =
            ⟨Except.error ("Failed deleting stack " ++
                resolveDeployName options.deployName options.stack.name ++
                " that had previously failed creation (current state: " ++
                d0.StackStatus ++ ")"),
              evs ++
                [Event.stackFailedCreatingCheck (resolveDeployName options.deployName options.stack.name),
                  Event.deleteStack (resolveDeployName options.deployName options.stack.name),
                  Event.waitForStack (resolveDeployName options.deployName options.stack.name) false]⟩ := by
          unfold deployStack
          rw [he, hbody]
          simp [hfailed, had, hst0]
        constructor
        · intro req pre post htr
          rw [hds] at htr
          dsimp only at htr
          have hmem : Event.createChangeSet req ∈ evs ++
              [Event.stackFailedCreatingCheck (resolveDeployName options.deployName options.stack.name),
                Event.deleteStack (resolveDeployName options.deployName options.stack.name),
                Event.waitForStack (resolveDeployName options.deployName options.stack.name) false] := by
            rw [htr]; simp
          rcases hevs with rfl | rfl <;> simp at hmem
        · intro d had' hst
          injection had' with h1
          injection h1 with h2
          subst h2
          refine ⟨by rw [hds], ?_⟩
          intro req
          rw [hds]
          dsimp only
          rcases hevs with rfl | rfl <;> simp

/-- Witness for C4 at `demoOptions` / `envStuckDelete` (deletion stuck in
`DELETE_FAILED`). -/
theorem deployStack_failed_creating_witness :
    demoOptions.stack.environment.isSome = true ∧
      makeBodyParameter demoOptions.stack demoOptions.toolkitInfo =
        (Except.ok { TemplateBody := some "Resources: demo", TemplateURL := none }, []) ∧
      envStuckDelete.stackFailedCreating = true ∧
      ((∀ req pre post,
          (deployStack demoOptions envStuckDelete).trace =
            pre ++ Event.createChangeSet req :: post →
          Event.deleteStack (resolveDeployName demoOptions.deployName demoOptions.stack.name) ∈ pre ∧
            Event.waitForStack (resolveDeployName demoOptions.deployName demoOptions.stack.name) false ∈ pre) ∧
        ∀ d : StackDescription, envStuckDelete.afterDeleteStack = Except.ok (some d) →
          d.StackStatus ≠ "DELETE_COMPLETE" →
          (deployStack demoOptions envStuckDelete).result =
              Except.error ("Failed deleting stack " ++
                resolveDeployName demoOptions.deployName demoOptions.stack.name ++
                " that had previously failed creation (current state: " ++
                d.StackStatus ++ ")") ∧
            ∀ req, Event.createChangeSet req ∉ (deployStack demoOptions envStuckDelete).trace) :=
  ⟨rfl, by decide, rfl,
    deployStack_failed_creating demoOptions envStuckDelete
      { TemplateBody := some "Resources: demo", TemplateURL := none } []
      rfl (by decide) rfl⟩

/-- Counterexample to C8 as stated: in the non-quiet run
`deployStack demoOptions envMonitorErr`, which executes a change set, the
`executeChangeSet` call strictly precedes the monitor's start (so the
claimed "monitor start strictly precedes executeChangeSet" is false), and
— the wait having terminated with an error — the monitor is never
stopped. -/
theorem deployStack_monitor_order_cex :
    demoOptions.quiet = false ∧
      Event.executeChangeSet "demo" "CDK-exec-4" ∈ (deployStack demoOptions envMonitorErr).trace ∧
      Event.monitorStart "demo" ∈ (deployStack demoOptions envMonitorErr).trace ∧
      ¬ (∀ pre post,
          (deployStack demoOptions envMonitorErr).trace =
            pre ++ Event.executeChangeSet "demo" "CDK-exec-4" :: post →
          Event.monitorStart "demo" ∈ pre) ∧
      Event.monitorStop "demo" ∉ (deployStack demoOptions envMonitorErr).trace := by
  refine ⟨rfl, by decide, by decide, ?_, by decide⟩
  intro hcontra
  have h := hcontra
    [Event.stackFailedCreatingCheck "demo", Event.stackExistsCheck "demo",
      Event.createChangeSet (mkChangeSetRequest demoOptions envMonitorErr "demo"
        { TemplateBody := some "Resources: demo", TemplateURL := none }),
      Event.waitForChangeSet "demo" "CDK-exec-4"]
    [Event.monitorStart "demo", Event.waitForStack "demo" true] (by decide)
  exact absurd h (by decide)

/-- Claim C8, amended as the code forces: in every non-quiet run that
executes a change set, the `executeChangeSet` call strictly precedes the
monitor's start; when the wait for the stack returns, the monitor's stop
strictly follows the terminal-status wait; but when the wait terminates
with an error, the monitor is never stopped. -/
theorem deployStack_monitor_order (options : DeployStackOptions) (env : CfnEnv)
    (bp : TemplateBodyParameter) (evs : List Event)
    (henv : options.stack.environment.isSome = true)
    (hbody : makeBodyParameter options.stack options.toolkitInfo = (Except.ok bp, evs))
    (hclean : cleanupPasses env = true)
    (hne : changesEmpty env.changeSetDescription = false)
    (hq : options.quiet = false) :
    Event.monitorStart (resolveDeployName options.deployName options.stack.name) ∈
        (deployStack options env).trace ∧
      (∀ pre post, (deployStack options env).trace =
          pre ++ Event.monitorStart (resolveDeployName options.deployName options.stack.name) :: post →
        Event.executeChangeSet (resolveDeployName options.deployName options.stack.name)
          ("CDK-" ++ env.executionId) ∈ pre) ∧
      (∀ pre post, (deployStack options env).trace =
          pre ++ Event.monitorStop (resolveDeployName options.deployName options.stack.name) :: post →
        Event.waitForStack (resolveDeployName options.deployName options.stack.name) true ∈ pre) ∧
      ∀ e, env.afterExecute = Except.error e →
        Event.monitorStop (resolveDeployName options.deployName options.stack.name) ∉
          (deployStack options env).trace := by
  obtain ⟨e, he⟩ := Option.isSome_iff_exists.mp henv
  obtain ⟨mid, hmid, heqd⟩ := deployStack_cleanup_eq options env bp evs e he hbody hclean
  have hevs := makeBodyParameter_events options.stack options.toolkitInfo
  rw [hbody] at hevs
  dsimp only at hevs
  rcases hex : env.afterExecute with e0 | st
  · have htr : (deployStack options env).trace =
        (evs ++ mid) ++
          [Event.stackExistsCheck (resolveDeployName options.deployName options.stack.name),
            Event.createChangeSet (mkChangeSetRequest options env
              (resolveDeployName options.deployName options.stack.name) bp),
            Event.waitForChangeSet (resolveDeployName options.deployName options.stack.name)
              ("CDK-" ++ env.executionId),
            Event.executeChangeSet (resolveDeployName options.deployName options.stack.name)
              ("CDK-" ++ env.executionId),
            Event.monitorStart (resolveDeployName options.deployName options.stack.name),
            Event.waitForStack (resolveDeployName options.deployName options.stack.name) true] := by
      rw [heqd, deployAfterCleanup_exec_err options env _ bp _ e0 hne hex]
      simp [hq]
    have hstop : Event.monitorStop (resolveDeployName options.deployName options.stack.name) ∉
        (deployStack options env).trace := by
      rw [htr]
      rcases hevs with rfl | rfl <;> rcases hmid with rfl | rfl <;> simp
    refine ⟨by rw [htr]; simp, ?_, ?_, fun _ _ => hstop⟩
    · intro pre post hsplit
      rw [htr] at hsplit
      have hsplit' : ((evs ++ mid) ++
          [Event.stackExistsCheck (resolveDeployName options.deployName options.stack.name),
            Event.createChangeSet (mkChangeSetRequest options env
              (resolveDeployName options.deployName options.stack.name) bp),
            Event.waitForChangeSet (resolveDeployName options.deployName options.stack.name)
              ("CDK-" ++ env.executionId),
            Event.executeChangeSet (resolveDeployName options.deployName options.stack.name)
              ("CDK-" ++ env.executionId)]) ++
          [Event.monitorStart (resolveDeployName options.deployName options.stack.name),
            Event.waitForStack (resolveDeployName options.deployName options.stack.name) true] =
          pre ++ Event.monitorStart (resolveDeployName options.deployName options.stack.name)
            :: post := by
        rw [← hsplit]
        simp
      have hnot : Event.monitorStart (resolveDeployName options.deployName options.stack.name) ∉
          (evs ++ mid) ++
          [Event.stackExistsCheck (resolveDeployName options.deployName options.stack.name),
            Event.createChangeSet (mkChangeSetRequest options env
              (resolveDeployName options.deployName options.stack.name) bp),
            Event.waitForChangeSet (resolveDeployName options.deployName options.stack.name)
              ("CDK-" ++ env.executionId),
            Event.executeChangeSet (resolveDeployName options.deployName options.stack.name)
              ("CDK-" ++ env.executionId)] := by
        rcases hevs with rfl | rfl <;> rcases hmid with rfl | rfl <;> simp
      exact mem_left_of_eq_append_cons _ hsplit' hnot _ (by simp)
    · intro pre post hsplit
      have hmem : Event.monitorStop (resolveDeployName options.deployName options.stack.name) ∈
          (deployStack options env).trace := by
        rw [hsplit]; simp
      exact absurd hmem hstop
  · have htr : (deployStack options env).trace =
        (evs ++ mid) ++
          [Event.stackExistsCheck (resolveDeployName options.deployName options.stack.name),
            Event.createChangeSet (mkChangeSetRequest options env
              (resolveDeployName options.deployName options.stack.name) bp),
            Event.waitForChangeSet (resolveDeployName options.deployName options.stack.name)
              ("CDK-" ++ env.executionId),
            Event.executeChangeSet (resolveDeployName options.deployName options.stack.name)
              ("CDK-" ++ env.executionId),
            Event.monitorStart (resolveDeployName options.deployName options.stack.name),
            Event.waitForStack (resolveDeployName options.deployName options.stack.name) true,
            Event.monitorStop (resolveDeployName options.deployName options.stack.name),
            Event.describeStack (resolveDeployName options.deployName options.stack.name)] := by
      rw [heqd, deployAfterCleanup_exec_ok options env _ bp _ st hne hex]
      simp [hq]
    refine ⟨by rw [htr]; simp, ?_, ?_, ?_⟩
    · intro pre post hsplit
      rw [htr] at hsplit
      have hsplit' : ((evs ++ mid) ++
          [Event.stackExistsCheck (resolveDeployName options.deployName options.stack.name),
            Event.createChangeSet (mkChangeSetRequest options env
              (resolveDeployName options.deployName options.stack.name) bp),
            Event.waitForChangeSet (resolveDeployName options.deployName options.stack.name)
              ("CDK-" ++ env.executionId),
            Event.executeChangeSet (resolveDeployName options.deployName options.stack.name)
              ("CDK-" ++ env.executionId)]) ++
          [Event.monitorStart (resolveDeployName options.deployName options.stack.name),
            Event.waitForStack (resolveDeployName options.deployName options.stack.name) true,
            Event.monitorStop (resolveDeployName options.deployName options.stack.name),
            Event.describeStack (resolveDeployName options.deployName options.stack.name)] =
          pre ++ Event.monitorStart (resolveDeployName options.deployName options.stack.name)
            :: post := by
        rw [← hsplit]
        simp
      have hnot : Event.monitorStart (resolveDeployName options.deployName options.stack.name) ∉
          (evs ++ mid) ++
          [Event.stackExistsCheck (resolveDeployName options.deployName options.stack.name),
            Event.createChangeSet (mkChangeSetRequest options env
              (resolveDeployName options.deployName options.stack.name) bp),
            Event.waitForChangeSet (resolveDeployName options.deployName options.stack.name)
              ("CDK-" ++ env.executionId),
            Event.executeChangeSet (resolveDeployName options.deployName options.stack.name)
              ("CDK-" ++ env.executionId)] := by
        rcases hevs with rfl | rfl <;> rcases hmid with rfl | rfl <;> simp
      exact mem_left_of_eq_append_cons _ hsplit' hnot _ (by simp)
    · intro pre post hsplit
      rw [htr] at hsplit
      have hsplit' : ((evs ++ mid) ++
          [Event.stackExistsCheck (resolveDeployName options.deployName options.stack.name),
            Event.createChangeSet (mkChangeSetRequest options env
              (resolveDeployName options.deployName options.stack.name) bp),
            Event.waitForChangeSet (resolveDeployName options.deployName options.stack.name)
              ("CDK-" ++ env.executionId),
            Event.executeChangeSet (resolveDeployName options.deployName options.stack.name)
              ("CDK-" ++ env.executionId),
            Event.monitorStart (resolveDeployName options.deployName options.stack.name),
            Event.waitForStack (resolveDeployName options.deployName options.stack.name) true]) ++
          [Event.monitorStop (resolveDeployName options.deployName options.stack.name),
            Event.describeStack (resolveDeployName options.deployName options.stack.name)] =
          pre ++ Event.monitorStop (resolveDeployName options.deployName options.stack.name)
            :: post := by
        rw [← hsplit]
        simp
      have hnot : Event.monitorStop (resolveDeployName options.deployName options.stack.name) ∉
          (evs ++ mid) ++
          [Event.stackExistsCheck (resolveDeployName options.deployName options.stack.name),
            Event.createChangeSet (mkChangeSetRequest options env
              (resolveDeployName options.deployName options.stack.name) bp),
            Event.waitForChangeSet (resolveDeployName options.deployName options.stack.name)
              ("CDK-" ++ env.executionId),
            Event.executeChangeSet (resolveDeployName options.deployName options.stack.name)
              ("CDK-" ++ env.executionId),
            Event.monitorStart (resolveDeployName options.deployName options.stack.name),
            Event.waitForStack (resolveDeployName options.deployName options.stack.name) true] := by
        rcases hevs with rfl | rfl <;> rcases hmid with rfl | rfl <;> simp
      exact mem_left_of_eq_append_cons _ hsplit' hnot _ (by simp)
    · intro e0 hex'
      simp at hex'

/-- Witness for the amended C8 at `demoOptions` / `envOneChange`. -/
theorem deployStack_monitor_order_witness :
    demoOptions.stack.environment.isSome = true ∧
      makeBodyParameter demoOptions.stack demoOptions.toolkitInfo =
        (Except.ok { TemplateBody := some "Resources: demo", TemplateURL := none }, []) ∧
      cleanupPasses envOneChange = true ∧
      changesEmpty envOneChange.changeSetDescription = false ∧
      demoOptions.quiet = false ∧
      (Event.monitorStart (resolveDeployName demoOptions.deployName demoOptions.stack.name) ∈
          (deployStack demoOptions envOneChange).trace ∧
        (∀ pre post, (deployStack demoOptions envOneChange).trace =
            pre ++ Event.monitorStart (resolveDeployName demoOptions.deployName demoOptions.stack.name) :: post →
          Event.executeChangeSet (resolveDeployName demoOptions.deployName demoOptions.stack.name)
            ("CDK-" ++ envOneChange.executionId) ∈ pre) ∧
        (∀ pre post, (deployStack demoOptions envOneChange).trace =
            pre ++ Event.monitorStop (resolveDeployName demoOptions.deployName demoOptions.stack.name) :: post →
          Event.waitForStack (resolveDeployName demoOptions.deployName demoOptions.stack.name) true ∈ pre) ∧
        ∀ e, envOneChange.afterExecute = Except.error e →
          Event.monitorStop (resolveDeployName demoOptions.deployName demoOptions.stack.name) ∉
            (deployStack demoOptions envOneChange).trace) :=
  ⟨rfl, by decide, rfl, rfl, rfl,
    deployStack_monitor_order demoOptions envOneChange
      { TemplateBody := some "Resources: demo", TemplateURL := none } []
      rfl (by decide) rfl rfl rfl⟩

/-- Witness for C6 at `denvAbsent`. -/
theorem destroyStack_idempotent_witness :
    demoDestroyOptions.stack.environment.isSome = true ∧
      denvAbsent.stackExists = false ∧
      ((destroyStack demoDestroyOptions denvAbsent).result = Except.ok () ∧
        (destroyStack demoDestroyOptions denvAbsent).trace =
          [Event.stackExistsCheck
            (resolveDeployName demoDestroyOptions.deployName demoDestroyOptions.stack.name)] ∧
        (∀ s, Event.deleteStack s ∉ (destroyStack demoDestroyOptions denvAbsent).trace) ∧
        ∀ s, Event.monitorStart s ∉ (destroyStack demoDestroyOptions denvAbsent).trace) :=
  ⟨rfl, rfl, destroyStack_idempotent demoDestroyOptions denvAbsent rfl rfl⟩

end DeployStackModel
